import Mathlib

/-
Verification of the health-checked gRPC endpoint resolver from the
olivere/grpc repository (package `lb` and sub-package `lb/healthz`).

The repository contains two generations of the resolver:
  * `healthz.Resolver`    in lb/healthz/healthz.go (the newer one), and
  * `lb.HealthzResolver`  in lb/healthz.go        (the older one).
They share the diff loop and the channel/close/updater plumbing verbatim,
and differ in how a failed probe is handled and in construction.

The embedding below is shallow: the per-round network outcomes are an
explicit input (`List ProbeResult`, one per endpoint, in endpoint order),
and stateful Go code becomes explicit state passing.  Go's `int` statuses
are modelled as `Nat` (HTTP status codes; no overflow is reachable).
-/

namespace GrpcLb

/-- Operation of a `naming.Update` (google.golang.org/grpc/naming):
`naming.Add` or `naming.Delete`. -/
inductive Op where
  | Add
  | Delete
deriving DecidableEq, Repr

/-- A `naming.Update`: an operation together with the affected address. -/
structure Update where
  op : Op
  addr : String
deriving DecidableEq, Repr

/-- Outcome of one HTTP health probe (`ctxhttp.Get` on the endpoint's
CheckURL): either a response was received with the given status code, or
the call failed (transport error, timeout, or expiry of the shared round
deadline — the Go code does not distinguish these: it only tests
`err != nil`). -/
inductive ProbeResult where
  | ok (code : Nat)
  | failure
deriving DecidableEq, Repr

/-- Whether a probe outcome is the error case (`err != nil`). -/
def isFailure : ProbeResult → Bool
  | .failure => true
  | .ok _ => false

/-- `http.StatusServiceUnavailable`. -/
def statusServiceUnavailable : Nat := 503

/-- `http.StatusNotImplemented`. -/
def statusNotImplemented : Nat := 501

/-- The OK test used by both diff loops: `status >= 200 && status < 300`. -/
def statusOK (s : Nat) : Bool := decide (200 ≤ s) && decide (s < 300)

/-- An endpoint as stored by either resolver: address, health-check URL,
and the last observed HTTP status (`status int`). -/
structure Endpoint where
  Addr : String
  CheckURL : String
  status : Nat
deriving DecidableEq, Repr

/-- The caller-supplied part of an endpoint (the `status` field of the
argument is ignored by both constructors, which overwrite it with a
sentinel). -/
structure EndpointSpec where
  Addr : String
  CheckURL : String
deriving DecidableEq, Repr

/-- The status code `Healthz.probeGo` stores for a probe outcome: the
response code on success, `http.StatusServiceUnavailable` on a failed
`ctxhttp.Get`. -/
def probeStatus : ProbeResult → Nat
  | .ok c => c
  | .failure => statusServiceUnavailable

/-- Classification of a probe outcome as healthy: a response was received
and its status code is in the 2xx success range. -/
def isHealthy : ProbeResult → Bool
  | .ok c => statusOK c
  | .failure => false

/-- One iteration of the diff loop shared verbatim by `Resolver.update`
(healthz/healthz.go:228-239) and `HealthzResolver.update`
(healthz.go:163-174): compare the old status snapshot with the endpoint's
current status; emit Delete on OK→not-OK, Add on not-OK→OK, nothing
otherwise. -/
def diffEvent (oldStatus : Nat) (ep : Endpoint) : Option Update :=
  let oldOK := statusOK oldStatus
  let newOK := statusOK ep.status
  if oldOK && !newOK then some ⟨Op.Delete, ep.Addr⟩
  else if !oldOK && newOK then some ⟨Op.Add, ep.Addr⟩
  else none

/-- The full diff loop: the old status snapshot paired positionally with
the post-probe endpoints.  (Go iterates the `oldStatuses` map in
unspecified order; the model fixes endpoint order.  Every property proved
below about a batch is order-insensitive: a length, a count, or a
membership.) -/
def diff : List Nat → List Endpoint → List Update
  | o :: os, e :: es =>
    match diffEvent o e with
    | some u => u :: diff os es
    | none => diff os es
  | _, _ => []

namespace Healthz

/-- Body of one probe goroutine in `Resolver.update`
(healthz/healthz.go:211-221): on a failed `ctxhttp.Get` the endpoint is
marked `http.StatusServiceUnavailable` and the goroutine returns nil;
otherwise `status` becomes the response code and the goroutine returns
nil.  The pair is (endpoint after the goroutine ran, error the goroutine
returned). -/
def probeGo (ep : Endpoint) (r : ProbeResult) : Endpoint × Option Unit :=
  match r with
  | .failure => ({ ep with status := statusServiceUnavailable }, none)
  | .ok c => ({ ep with status := c }, none)

/-- `Resolver.update` (healthz/healthz.go:195-242): snapshot the old
statuses, run all probes (mutating each endpoint's status), return
`g.Wait()`'s first error if any goroutine returned one, otherwise the
diff of old vs new statuses.  The endpoint list after the round is
returned alongside, since the statuses are mutated in place before
`g.Wait()` is consulted. -/
def update (endp : List Endpoint) (results : List ProbeResult) :
    Except Unit (List Update) × List Endpoint :=
  let oldStatuses := endp.map Endpoint.status
  let probed := List.zipWith probeGo endp results
  let newEndp := probed.map Prod.fst
  match probed.findSome? Prod.snd with
  | some e => (Except.error e, newEndp)
  | none => (Except.ok (diff oldStatuses newEndp), newEndp)

/-- `SetEndpoints` (healthz/healthz.go:107-120): copy the given
address/URL pairs, setting every status to the
`http.StatusServiceUnavailable` sentinel. -/
def setEndpoints (eps : List EndpointSpec) : List Endpoint :=
  eps.map fun e =>
    { Addr := e.Addr, CheckURL := e.CheckURL, status := statusServiceUnavailable }

/-- `NewResolver` (healthz/healthz.go:76-104): fail with `ErrNoEndpoints`
iff the endpoint list is empty; otherwise run one synchronous round and
push its batch onto the updates channel only when the round returned no
error and the batch is non-empty.  Returns the channel contents and the
endpoint state after the initial round. -/
def newResolver (eps : List EndpointSpec) (firstRound : List ProbeResult) :
    Except Unit (List (List Update) × List Endpoint) :=
  let endp := setEndpoints eps
  if endp.length = 0 then Except.error ()
  else
    let r := update endp firstRound
    match r with
    | (Except.ok updates, newEndp) =>
      Except.ok ((if updates.length > 0 then [updates] else []), newEndp)
    | (Except.error _, newEndp) => Except.ok ([], newEndp)

end Healthz

namespace Lb

/-- Body of one probe goroutine in `HealthzResolver.update`
(healthz.go:148-156): on a failed `ctxhttp.Get` the goroutine returns the
error and leaves the status unchanged; otherwise `status` becomes the
response code and the goroutine returns nil. -/
def probeGo (ep : Endpoint) (r : ProbeResult) : Endpoint × Option Unit :=
  match r with
  | .failure => (ep, some ())
  | .ok c => ({ ep with status := c }, none)

/-- `HealthzResolver.update` (healthz.go:132-176): identical to
`Healthz.update` except for the probe goroutine body, so a single failed
probe makes `g.Wait()` return its error and the whole round fail. -/
def update (endp : List Endpoint) (results : List ProbeResult) :
    Except Unit (List Update) × List Endpoint :=
  let oldStatuses := endp.map Endpoint.status
  let probed := List.zipWith probeGo endp results
  let newEndp := probed.map Prod.fst
  match probed.findSome? Prod.snd with
  | some e => (Except.error e, newEndp)
  | none => (Except.ok (diff oldStatuses newEndp), newEndp)

/-- Endpoint construction inside `NewHealthzResolver` (healthz.go:55-62):
every status starts at the `http.StatusNotImplemented` sentinel. -/
def mkEndpoints (eps : List EndpointSpec) : List Endpoint :=
  eps.map fun e =>
    { Addr := e.Addr, CheckURL := e.CheckURL, status := statusNotImplemented }

/-- Result of running `NewHealthzResolver`: an error, a forever-blocked
constructor, or a resolver with the given channel contents and endpoint
state. -/
inductive ConstructOutcome where
  | err
  | blocked
  | ok (chan : List (List Update)) (endp : List Endpoint)
deriving DecidableEq, Repr

/-- `NewHealthzResolver` (healthz.go:54-82): no empty-list check; the
updates channel has capacity `len(endp)`; the initial round's error is
returned as a construction error; otherwise the batch is sent
unconditionally — on a zero-endpoint list the channel is unbuffered and
has no receiver yet, so that send blocks forever. -/
def newHealthzResolver (eps : List EndpointSpec) (firstRound : List ProbeResult) :
    ConstructOutcome :=
  let endp := mkEndpoints eps
  match update endp firstRound with
  | (Except.error _, _) => ConstructOutcome.err
  | (Except.ok updates, newEndp) =>
    if endp.length = 0 then ConstructOutcome.blocked
    else ConstructOutcome.ok [updates] newEndp

end Lb

/-- Observable state of a running resolver, shared verbatim by both
generations: the endpoint slice, whether `quitc` and `updatesc` have been
closed, and the batches buffered in `updatesc` (FIFO). -/
structure ResolverState where
  endp : List Endpoint
  quitClosed : Bool
  updatesClosed : Bool
  buf : List (List Update)
deriving DecidableEq, Repr

/-- `Close` (healthz/healthz.go:164-171 and healthz.go:101-108): the
select receives from `quitc` — which succeeds iff `quitc` is already
closed — and does nothing in that case; in the default case it closes
both channels. -/
def close (s : ResolverState) : ResolverState :=
  if s.quitClosed then s
  else { s with quitClosed := true, updatesClosed := true }

/-- What a call to `Next` does before returning. -/
inductive NextOutcome where
  | returns (batch : List Update) (error : Option Unit)
  | blocks
deriving DecidableEq, Repr

/-- `Next` (healthz/healthz.go:159-161 and healthz.go:96-98):
`return <-r.updatesc, nil`.  A channel receive takes the oldest buffered
batch if any; on an empty closed channel it yields the zero value (a nil
slice, modelled as `[]`); on an empty open channel it blocks.  The error
returned is the literal `nil`. -/
def next (s : ResolverState) : NextOutcome × ResolverState :=
  match s.buf with
  | b :: rest => (NextOutcome.returns b none, { s with buf := rest })
  | [] =>
    if s.updatesClosed then (NextOutcome.returns [] none, s)
    else (NextOutcome.blocks, s)

/-- The two events the updater's select can wake on: `quitc` became
receivable (it was closed), or the ticker fired and a round runs with the
given probe outcomes. -/
inductive UpdaterEvent where
  | quit
  | tick (results : List ProbeResult)

/-- One select iteration of `Resolver.updater`
(healthz/healthz.go:174-191; `HealthzResolver.updater`,
healthz.go:111-128, is identical up to the log sink).  In the `quit` case
the source executes `break`, which by Go semantics terminates only the
innermost `select` statement, not the `for` loop, so the loop continues.
In the `tick` case a round runs: on error the batch is dropped
(`continue`); otherwise the batch — empty or not — is sent on
`updatesc`, and a send on a closed channel is a runtime panic.  Returns
(state after, whether the loop continues, whether the send panicked). -/
def updaterStep (s : ResolverState) : UpdaterEvent → ResolverState × Bool × Bool
  | .quit => (s, true, false)
  | .tick results =>
    match Healthz.update s.endp results with
    | (Except.error _, newEndp) => ({ s with endp := newEndp }, true, false)
    | (Except.ok updates, newEndp) =>
      if s.updatesClosed then ({ s with endp := newEndp }, false, true)
      else ({ s with endp := newEndp, buf := s.buf ++ [updates] }, true, false)

end GrpcLb

namespace GrpcLb

/-- An event produced by one diff iteration carries that endpoint's
address. -/
theorem diffEvent_addr {o : Nat} {e : Endpoint} {u : Update}
    (h : diffEvent o e = some u) : u.addr = e.Addr := by
  simp only [diffEvent] at h
  split_ifs at h <;> simp_all <;> subst h <;> rfl

/-- Every event in a diff batch carries the address of one of the
compared endpoints. -/
theorem diff_addr_mem : ∀ (os : List Nat) (es : List Endpoint) (u : Update),
    u ∈ diff os es → ∃ e ∈ es, u.addr = e.Addr
  | o :: os, e :: es, u => by
    intro hu
    simp only [diff] at hu
    cases h : diffEvent o e with
    | some v =>
      rw [h] at hu
      rcases List.mem_cons.mp hu with rfl | hu2
      · exact ⟨e, List.mem_cons_self e es, diffEvent_addr h⟩
      · obtain ⟨e2, he2, ha⟩ := diff_addr_mem os es u hu2
        exact ⟨e2, List.mem_cons_of_mem e he2, ha⟩
    | none =>
      rw [h] at hu
      obtain ⟨e2, he2, ha⟩ := diff_addr_mem os es u hu
      exact ⟨e2, List.mem_cons_of_mem e he2, ha⟩
  | [], _, u => by intro h; simp [diff] at h
  | _ :: _, [], u => by intro h; simp [diff] at h

/-- A diff batch never has more events than endpoints. -/
theorem diff_length_le : ∀ (os : List Nat) (es : List Endpoint),
    (diff os es).length ≤ es.length
  | o :: os, e :: es => by
    simp only [diff]
    cases h : diffEvent o e with
    | some v => simpa using diff_length_le os es
    | none => exact Nat.le_succ_of_le (diff_length_le os es)
  | [], _ => by simp [diff]
  | _ :: _, [] => by simp [diff]

/-- One diff iteration emits Delete exactly on an OK→not-OK transition. -/
theorem diffEvent_delete_iff (o : Nat) (e : Endpoint) :
    diffEvent o e = some ⟨Op.Delete, e.Addr⟩
      ↔ (statusOK o = true ∧ statusOK e.status = false) := by
  simp only [diffEvent]
  split_ifs with h1 h2 <;>
    simp_all [Bool.and_eq_true, Bool.not_eq_true']

/-- One diff iteration emits Add exactly on a not-OK→OK transition. -/
theorem diffEvent_add_iff (o : Nat) (e : Endpoint) :
    diffEvent o e = some ⟨Op.Add, e.Addr⟩
      ↔ (statusOK o = false ∧ statusOK e.status = true) := by
  simp only [diffEvent]
  split_ifs with h1 h2 <;>
    simp_all [Bool.and_eq_true, Bool.not_eq_true']

/-- When the compared endpoints have pairwise distinct addresses, the
number of events a diff batch holds for a given endpoint's address and
operation is decided by that endpoint's own transition alone. -/
theorem diff_count (op : Op) : ∀ (os : List Nat) (es : List Endpoint),
    (es.map Endpoint.Addr).Nodup →
    ∀ (o : Nat) (e : Endpoint), (o, e) ∈ os.zip es →
    (diff os es).count ⟨op, e.Addr⟩
      = if diffEvent o e = some ⟨op, e.Addr⟩ then 1 else 0
  | o1 :: os, e1 :: es, hnodup, o, e, hmem => by
    simp only [List.map_cons, List.nodup_cons] at hnodup
    obtain ⟨hni, hnd⟩ := hnodup
    rw [List.zip_cons_cons] at hmem
    rcases List.mem_cons.mp hmem with heq | hmem2
    · injection heq with ho he
      subst ho; subst he
      have htail : (⟨op, e.Addr⟩ : Update) ∉ diff os es := by
        intro hin
        obtain ⟨e2, he2, ha⟩ := diff_addr_mem os es _ hin
        have ha2 : e.Addr = e2.Addr := ha
        exact hni (ha2 ▸ List.mem_map_of_mem Endpoint.Addr he2)
      simp only [diff]
      cases hde : diffEvent o e with
      | some u =>
        rw [List.count_cons, List.count_eq_zero.mpr htail]
        simp
      | none =>
        rw [List.count_eq_zero.mpr htail]
        simp
    · have hees : e ∈ es := (List.of_mem_zip hmem2).2
      have hne : e1.Addr ≠ e.Addr := by
        intro hcontra
        exact hni (hcontra ▸ List.mem_map_of_mem Endpoint.Addr hees)
      simp only [diff]
      cases hde : diffEvent o1 e1 with
      | some u =>
        have hu : u ≠ ⟨op, e.Addr⟩ := by
          intro hcontra
          apply hne
          have haddr := diffEvent_addr hde
          rw [hcontra] at haddr
          exact haddr.symm
        rw [List.count_cons]
        simp only [beq_iff_eq]
        rw [if_neg hu, Nat.add_zero]
        exact diff_count op os es hnd o e hmem2
      | none => exact diff_count op os es hnd o e hmem2
  | [], _, _, o, e, hmem => by simp at hmem
  | _ :: _, [], _, o, e, hmem => by simp at hmem

/-- A probe goroutine of the newer resolver always returns a nil error. -/
theorem healthz_probeGo_no_error (e : Endpoint) (r : ProbeResult) :
    (Healthz.probeGo e r).2 = none := by
  cases r <;> rfl

/-- The status a probe goroutine of the newer resolver stores. -/
theorem healthz_probeGo_status (e : Endpoint) (r : ProbeResult) :
    (Healthz.probeGo e r).1.status = probeStatus r := by
  cases r <;> rfl

/-- A probe goroutine of the newer resolver never touches the address. -/
theorem healthz_probeGo_Addr (e : Endpoint) (r : ProbeResult) :
    (Healthz.probeGo e r).1.Addr = e.Addr := by
  cases r <;> rfl

/-- A probe goroutine of the newer resolver never touches the check URL. -/
theorem healthz_probeGo_CheckURL (e : Endpoint) (r : ProbeResult) :
    (Healthz.probeGo e r).1.CheckURL = e.CheckURL := by
  cases r <;> rfl

/-- In the newer resolver, `g.Wait()` observes no error: every probe
goroutine returns nil. -/
theorem healthz_wait_no_error : ∀ (endp : List Endpoint) (rs : List ProbeResult),
    (List.zipWith Healthz.probeGo endp rs).findSome? Prod.snd = none
  | [], _ => rfl
  | _ :: _, [] => rfl
  | e :: es, r :: rs => by
    rw [List.zipWith_cons_cons, List.findSome?_cons, healthz_probeGo_no_error]
    exact healthz_wait_no_error es rs

/-- The newer resolver's round therefore always produces a batch. -/
theorem healthz_update_ok (endp : List Endpoint) (rs : List ProbeResult) :
    (Healthz.update endp rs).1
      = Except.ok (diff (endp.map Endpoint.status)
          ((List.zipWith Healthz.probeGo endp rs).map Prod.fst)) := by
  simp only [Healthz.update, healthz_wait_no_error]

/-- The endpoint list after the newer resolver's round. -/
theorem healthz_update_endp (endp : List Endpoint) (rs : List ProbeResult) :
    (Healthz.update endp rs).2
      = (List.zipWith Healthz.probeGo endp rs).map Prod.fst := by
  simp only [Healthz.update]
  cases h : (List.zipWith Healthz.probeGo endp rs).findSome? Prod.snd <;> rfl

/-- After a full round of the newer resolver, the stored statuses are the
per-probe outcomes, in endpoint order. -/
theorem healthz_statuses_after : ∀ (endp : List Endpoint) (rs : List ProbeResult),
    rs.length = endp.length →
    ((List.zipWith Healthz.probeGo endp rs).map Prod.fst).map Endpoint.status
      = rs.map probeStatus
  | [], [], _ => rfl
  | e :: es, r :: rs, h => by
    simp only [List.zipWith_cons_cons, List.map_cons]
    rw [healthz_probeGo_status, healthz_statuses_after es rs (by simpa using h)]

/-- A round of the newer resolver leaves every address unchanged. -/
theorem healthz_addrs_after : ∀ (endp : List Endpoint) (rs : List ProbeResult),
    rs.length = endp.length →
    ((List.zipWith Healthz.probeGo endp rs).map Prod.fst).map Endpoint.Addr
      = endp.map Endpoint.Addr
  | [], [], _ => rfl
  | e :: es, r :: rs, h => by
    simp only [List.zipWith_cons_cons, List.map_cons]
    rw [healthz_probeGo_Addr, healthz_addrs_after es rs (by simpa using h)]

/-- A round of the newer resolver leaves every check URL unchanged. -/
theorem healthz_checkurls_after : ∀ (endp : List Endpoint) (rs : List ProbeResult),
    rs.length = endp.length →
    ((List.zipWith Healthz.probeGo endp rs).map Prod.fst).map Endpoint.CheckURL
      = endp.map Endpoint.CheckURL
  | [], [], _ => rfl
  | e :: es, r :: rs, h => by
    simp only [List.zipWith_cons_cons, List.map_cons]
    rw [healthz_probeGo_CheckURL, healthz_checkurls_after es rs (by simpa using h)]

/-- A round of the newer resolver preserves the population size. -/
theorem healthz_length_after (endp : List Endpoint) (rs : List ProbeResult)
    (h : rs.length = endp.length) :
    ((List.zipWith Healthz.probeGo endp rs).map Prod.fst).length = endp.length := by
  rw [List.length_map, List.length_zipWith, h, Nat.min_self]

/-- The status classification agrees with the probe classification. -/
theorem statusOK_probeStatus (r : ProbeResult) :
    statusOK (probeStatus r) = isHealthy r := by
  cases r with
  | ok c => rfl
  | failure => rfl

/-- In the older resolver, a failed probe makes `g.Wait()` return its
error. -/
theorem lb_wait_error : ∀ (endp : List Endpoint) (rs : List ProbeResult),
    rs.length = endp.length → rs.any isFailure = true →
    (List.zipWith Lb.probeGo endp rs).findSome? Prod.snd = some ()
  | e :: es, r :: rs, hlen, hany => by
    cases r with
    | failure => rfl
    | ok c =>
      rw [List.zipWith_cons_cons, List.findSome?_cons]
      have : (Lb.probeGo e (ProbeResult.ok c)).2 = none := rfl
      rw [this]
      have hany2 : rs.any isFailure = true := by simpa [isFailure] using hany
      exact lb_wait_error es rs (by simpa using hlen) hany2
  | [], [], hlen, hany => by simp at hany
  | [], _ :: _, hlen, hany => by simp at hlen
  | _ :: _, [], hlen, hany => by simp at hany

/-- The `http.StatusServiceUnavailable` sentinel is classified not-OK. -/
theorem statusOK_sentinel : statusOK statusServiceUnavailable = false := by decide

/-- The `http.StatusNotImplemented` sentinel is classified not-OK. -/
theorem statusOK_notImplemented : statusOK statusNotImplemented = false := by decide

/-- Against a not-OK previous status, a diff iteration emits Add exactly
when the new status is OK. -/
theorem diffEvent_notOK {o : Nat} (ho : statusOK o = false) (e : Endpoint) :
    diffEvent o e
      = if statusOK e.status then some ⟨Op.Add, e.Addr⟩ else none := by
  simp [diffEvent, ho]

/-- Unfolding of `SetEndpoints` one endpoint at a time. -/
theorem setEndpoints_cons (e : EndpointSpec) (es : List EndpointSpec) :
    Healthz.setEndpoints (e :: es)
      = { Addr := e.Addr, CheckURL := e.CheckURL, status := statusServiceUnavailable }
        :: Healthz.setEndpoints es := rfl

/-- When every previous status is not-OK, a round's batch is one Add per
endpoint found healthy, in endpoint order, and nothing for the rest. -/
theorem diff_from_notOK : ∀ (endp : List Endpoint) (rs : List ProbeResult),
    (∀ e ∈ endp, statusOK e.status = false) →
    diff (endp.map Endpoint.status)
         ((List.zipWith Healthz.probeGo endp rs).map Prod.fst)
      = (endp.zip rs).filterMap
          (fun p => if isHealthy p.2 then some (⟨Op.Add, p.1.Addr⟩ : Update) else none)
  | [], rs, _ => rfl
  | e :: es, [], _ => rfl
  | e :: es, r :: rs, h => by
    have he : statusOK e.status = false := h e (List.mem_cons_self e es)
    have ih := diff_from_notOK es rs (fun x hx => h x (List.mem_cons_of_mem e hx))
    cases hr : isHealthy r with
    | true =>
      simp [diff, diffEvent_notOK he, healthz_probeGo_status,
        healthz_probeGo_Addr, statusOK_probeStatus, hr, ih]
    | false =>
      simp [diff, diffEvent_notOK he, healthz_probeGo_status,
        healthz_probeGo_Addr, statusOK_probeStatus, hr, ih]

/-- Every endpoint produced by `SetEndpoints` carries the not-OK
sentinel. -/
theorem setEndpoints_notOK (eps : List EndpointSpec) :
    ∀ e ∈ Healthz.setEndpoints eps, statusOK e.status = false := by
  intro e he
  obtain ⟨s, hs, rfl⟩ := List.mem_map.mp he
  exact statusOK_sentinel

/-- Zipping the freshly constructed endpoints instead of the given specs
does not change the first-round batch (only the addresses matter). -/
theorem filterMap_zip_setEndpoints : ∀ (eps : List EndpointSpec) (rs : List ProbeResult),
    ((Healthz.setEndpoints eps).zip rs).filterMap
        (fun p => if isHealthy p.2 then some (⟨Op.Add, p.1.Addr⟩ : Update) else none)
      = (eps.zip rs).filterMap
          (fun p => if isHealthy p.2 then some (⟨Op.Add, p.1.Addr⟩ : Update) else none)
  | [], rs => rfl
  | e :: es, [] => rfl
  | e :: es, r :: rs => by
    have ih := filterMap_zip_setEndpoints es rs
    cases hr : isHealthy r with
    | true => simp [setEndpoints_cons, hr, ih]
    | false => simp [setEndpoints_cons, hr, ih]

/-- When every probe of the first round is healthy, the first batch is
one Add per endpoint, in order. -/
theorem filterMap_all_healthy : ∀ (eps : List EndpointSpec) (rs : List ProbeResult),
    rs.length = eps.length → (∀ r ∈ rs, isHealthy r = true) →
    (eps.zip rs).filterMap
        (fun p => if isHealthy p.2 then some (⟨Op.Add, p.1.Addr⟩ : Update) else none)
      = eps.map fun e => (⟨Op.Add, e.Addr⟩ : Update)
  | [], [], _, _ => rfl
  | e :: es, r :: rs, hlen, hall => by
    have hr : isHealthy r = true := hall r (List.mem_cons_self r rs)
    have ih := filterMap_all_healthy es rs (by simpa using hlen)
      (fun x hx => hall x (List.mem_cons_of_mem r hx))
    simp [hr, ih]
  | [], _ :: _, hlen, _ => by simp at hlen
  | _ :: _, [], hlen, _ => by simp at hlen

/-- Counting an Add event in the all-Add batch is counting its address
among the configured addresses. -/
theorem count_map_add (eps : List EndpointSpec) (a : String) :
    ((eps.map fun e => (⟨Op.Add, e.Addr⟩ : Update)).count ⟨Op.Add, a⟩)
      = (eps.map EndpointSpec.Addr).count a := by
  induction eps with
  | nil => rfl
  | cons e es ih => simp [List.count_cons, ih]

/-- The source's non-empty-batch guard, followed by draining the channel:
the events visible on the channel are exactly the batch. -/
theorem join_guard (b : List Update) :
    (if b.length > 0 then [b] else []).flatten = b := by
  cases b <;> simp

/-- C9: calling `Close` twice (or more) has identical observable effect
to calling it once; the second and later calls change nothing. -/
theorem C9_close_idempotent (s : ResolverState) : close (close s) = close s := by
  by_cases h : s.quitClosed = true
  · simp [close, h]
  · simp [close, h]

/-- C5 (code bug): a probing round that produces zero events still sends
the empty batch on the updates channel — the updater loop pushes every
successful round's batch with no non-emptiness guard — and the
consumer's next `Next()` call then returns the empty batch instead of
blocking through the no-op round.  Failing input: one endpoint whose
status is 200 and whose probe again returns 200. -/
theorem C5_empty_batch_is_pushed :
    updaterStep
        ⟨[⟨"10.0.0.1:9000", "http://10.0.0.1:9000/healthz", 200⟩], false, false, []⟩
        (UpdaterEvent.tick [ProbeResult.ok 200])
      = (⟨[⟨"10.0.0.1:9000", "http://10.0.0.1:9000/healthz", 200⟩], false, false, [[]]⟩,
         true, false)
  ∧ (next ⟨[⟨"10.0.0.1:9000", "http://10.0.0.1:9000/healthz", 200⟩], false, false, [[]]⟩).1
      = NextOutcome.returns [] none :=
  ⟨rfl, rfl⟩

/-- C7 (code bug): after `Close`, the `break` in the updater's select
terminates only the select statement, so the loop is not exited; a
subsequent ticker tick still runs a probing round, writes the endpoint
set (200 becomes 503 here), and panics sending on the closed updates
channel. -/
theorem C7_updater_survives_close :
    updaterStep ⟨[⟨"10.0.0.1:9000", "http://10.0.0.1:9000/healthz", 200⟩], true, true, []⟩
        UpdaterEvent.quit
      = (⟨[⟨"10.0.0.1:9000", "http://10.0.0.1:9000/healthz", 200⟩], true, true, []⟩,
         true, false)
  ∧ (updaterStep ⟨[⟨"10.0.0.1:9000", "http://10.0.0.1:9000/healthz", 200⟩], true, true, []⟩
        (UpdaterEvent.tick [ProbeResult.failure])).1.endp
      = [⟨"10.0.0.1:9000", "http://10.0.0.1:9000/healthz", 503⟩]
  ∧ (updaterStep ⟨[⟨"10.0.0.1:9000", "http://10.0.0.1:9000/healthz", 200⟩], true, true, []⟩
        (UpdaterEvent.tick [ProbeResult.failure])).2.2 = true :=
  ⟨rfl, rfl, rfl⟩

/-- C6 counterexample: on a closed resolver, `Next` does not return an
error — `return <-r.updatesc, nil` yields the channel's zero value and a
nil error once the channel is closed and drained. -/
theorem C6_counterexample :
    ¬ ∃ b e, (next ⟨[], true, true, []⟩).1 = NextOutcome.returns b (some e) := by
  rintro ⟨b, e, h⟩
  have h2 : NextOutcome.returns ([] : List Update) none
      = NextOutcome.returns b (some e) := h
  injection h2 with hb he
  exact Option.noConfusion he

/-- C6 amended: `Next` never returns an error at all; after `Close`, a
blocked or future `Next` call returns immediately (it does not block),
with a nil batch and a nil error. -/
theorem C6_amended_next_never_errors (s : ResolverState) :
    (∀ b e, (next s).1 = NextOutcome.returns b e → e = none)
  ∧ (s.updatesClosed = true → (next s).1 ≠ NextOutcome.blocks) := by
  obtain ⟨endp, q, u, buf⟩ := s
  cases u <;> cases buf <;> constructor <;> simp [next]

/-- C6 witness: instantiation of the amended claim on a concrete closed
resolver state. -/
theorem C6_witness :
    (next ⟨[], true, true, []⟩).1 ≠ NextOutcome.blocks :=
  (C6_amended_next_never_errors ⟨[], true, true, []⟩).2 rfl

/-- C3 counterexample: in `HealthzResolver.update`, a transport error on
one endpoint's probe makes the whole round fail (`update` returns the
error, so no batch is produced) and the failing endpoint keeps its old
OK status instead of being marked unhealthy. -/
theorem C3_counterexample :
    (Lb.update [⟨"10.0.0.1:9000", "http://10.0.0.1:9000/healthz", 200⟩,
                ⟨"10.0.0.2:9000", "http://10.0.0.2:9000/healthz", 200⟩]
        [ProbeResult.failure, ProbeResult.ok 200]).1 = Except.error ()
  ∧ (Lb.update [⟨"10.0.0.1:9000", "http://10.0.0.1:9000/healthz", 200⟩,
                ⟨"10.0.0.2:9000", "http://10.0.0.2:9000/healthz", 200⟩]
        [ProbeResult.failure, ProbeResult.ok 200]).2.map Endpoint.status = [200, 200] :=
  ⟨rfl, rfl⟩

/-- C3 amended, which holds for the newer `healthz.Resolver.update`: the
round never fails, every endpoint's stored status becomes exactly its own
probe's outcome (a failed probe stores 503, a response stores its code),
and an endpoint is classified healthy iff a response was received with a
status code in the 200–299 range. -/
theorem C3_amended_probe_isolation (endp : List Endpoint) (rs : List ProbeResult)
    (hlen : rs.length = endp.length) :
    (∃ batch, (Healthz.update endp rs).1 = Except.ok batch)
  ∧ (Healthz.update endp rs).2.map Endpoint.status = rs.map probeStatus
  ∧ (∀ r, statusOK (probeStatus r) = true
        ↔ ∃ c, r = ProbeResult.ok c ∧ 200 ≤ c ∧ c < 300) := by
  refine ⟨⟨_, healthz_update_ok endp rs⟩, ?_, ?_⟩
  · rw [healthz_update_endp]
    exact healthz_statuses_after endp rs hlen
  · intro r
    cases r with
    | ok c => simp [probeStatus, statusOK]
    | failure => simp [probeStatus, statusOK, statusServiceUnavailable]

/-- C3 witness: instantiation of the amended claim on one endpoint whose
probe fails. -/
theorem C3_witness :
    (∃ batch, (Healthz.update [⟨"a", "u", 200⟩] [ProbeResult.failure]).1 = Except.ok batch)
  ∧ (Healthz.update [⟨"a", "u", 200⟩] [ProbeResult.failure]).2.map Endpoint.status
      = [ProbeResult.failure].map probeStatus
  ∧ (∀ r, statusOK (probeStatus r) = true
        ↔ ∃ c, r = ProbeResult.ok c ∧ 200 ≤ c ∧ c < 300) :=
  C3_amended_probe_isolation [⟨"a", "u", 200⟩] [ProbeResult.failure] rfl

/-- `SetEndpoints` preserves the number of endpoints. -/
theorem setEndpoints_length (eps : List EndpointSpec) :
    (Healthz.setEndpoints eps).length = eps.length :=
  List.length_map eps _

/-- C4 counterexample: `NewHealthzResolver` violates both directions of
the claim — a non-empty endpoint list fails construction when the
initial round's probe errors (so success does not hold regardless of
probe outcomes), and an empty endpoint list does not produce an
empty-endpoint-set error (the constructor blocks forever on its
unbuffered channel send instead). -/
theorem C4_counterexample :
    Lb.newHealthzResolver [⟨"10.0.0.1:9000", "http://10.0.0.1:9000/healthz"⟩]
        [ProbeResult.failure] = Lb.ConstructOutcome.err
  ∧ Lb.newHealthzResolver [] [] = Lb.ConstructOutcome.blocked :=
  ⟨rfl, rfl⟩

/-- C4 amended, which holds for the newer `healthz.NewResolver`: it
fails with `ErrNoEndpoints` iff the configured endpoint list is empty,
and for every non-empty list construction succeeds regardless of the
first round's probe outcomes. -/
theorem C4_amended_construction (eps : List EndpointSpec) (rs : List ProbeResult) :
    (Healthz.newResolver eps rs = Except.error () ↔ eps = [])
  ∧ (eps ≠ [] → ∃ chan endp, Healthz.newResolver eps rs = Except.ok (chan, endp)) := by
  cases eps with
  | nil =>
    refine ⟨⟨fun _ => rfl, fun _ => rfl⟩, fun h => absurd rfl h⟩
  | cons e es =>
    have h0 : ¬ (Healthz.setEndpoints (e :: es)).length = 0 := by
      rw [setEndpoints_length]
      simp
    constructor
    · constructor
      · intro h
        exfalso
        simp only [Healthz.newResolver] at h
        rw [if_neg h0] at h
        rcases hu : Healthz.update (Healthz.setEndpoints (e :: es)) rs with ⟨res, newEndp⟩
        rw [hu] at h
        cases res <;> simp at h
      · intro h
        exact absurd h (List.cons_ne_nil e es)
    · intro _
      simp only [Healthz.newResolver]
      rw [if_neg h0]
      rcases hu : Healthz.update (Healthz.setEndpoints (e :: es)) rs with ⟨res, newEndp⟩
      cases res with
      | ok updates => exact ⟨_, _, rfl⟩
      | error err => exact ⟨_, _, rfl⟩

/-- C4 witness: a one-endpoint list whose first probe fails still
constructs successfully in the newer resolver. -/
theorem C4_witness :
    ∃ chan endp,
      Healthz.newResolver [⟨"a", "u"⟩] [ProbeResult.failure] = Except.ok (chan, endp) :=
  (C4_amended_construction [⟨"a", "u"⟩] [ProbeResult.failure]).2 (by simp)

/-- C8 counterexample: in the newer resolver a round whose only probe
hits the shared deadline (a failed `ctxhttp.Get`) is not discarded — the
endpoint's stored status is mutated from 200 to 503 and a Delete batch
is produced. -/
theorem C8_counterexample :
    (Healthz.update [⟨"10.0.0.1:9000", "http://10.0.0.1:9000/healthz", 200⟩]
        [ProbeResult.failure]).1
      = Except.ok [⟨Op.Delete, "10.0.0.1:9000"⟩]
  ∧ (Healthz.update [⟨"10.0.0.1:9000", "http://10.0.0.1:9000/healthz", 200⟩]
        [ProbeResult.failure]).2.map Endpoint.status = [503] :=
  ⟨rfl, rfl⟩

/-- C8 amended: expiry of the shared round deadline surfaces as failed
probes.  In the newer resolver the round is never aborted: it completes
with a batch and every endpoint's status is overwritten with its own
probe outcome (503 for the failed ones) — statuses are mutated.  In the
older `HealthzResolver` such a round does return an error, producing no
batch. -/
theorem C8_amended_no_round_abort (endp : List Endpoint) (rs : List ProbeResult)
    (hlen : rs.length = endp.length) (hfail : rs.any isFailure = true) :
    (∃ batch, (Healthz.update endp rs).1 = Except.ok batch)
  ∧ (Healthz.update endp rs).2.map Endpoint.status = rs.map probeStatus
  ∧ (Lb.update endp rs).1 = Except.error () := by
  refine ⟨⟨_, healthz_update_ok endp rs⟩, ?_, ?_⟩
  · rw [healthz_update_endp]
    exact healthz_statuses_after endp rs hlen
  · simp only [Lb.update]
    rw [lb_wait_error endp rs hlen hfail]

/-- C8 witness: instantiation of the amended claim on one endpoint whose
probe hits the deadline. -/
theorem C8_witness :
    (∃ batch, (Healthz.update [⟨"a", "u", 200⟩] [ProbeResult.failure]).1 = Except.ok batch)
  ∧ (Healthz.update [⟨"a", "u", 200⟩] [ProbeResult.failure]).2.map Endpoint.status
      = [ProbeResult.failure].map probeStatus
  ∧ (Lb.update [⟨"a", "u", 200⟩] [ProbeResult.failure]).1 = Except.error () :=
  C8_amended_no_round_abort [⟨"a", "u", 200⟩] [ProbeResult.failure] rfl rfl

/-- C1: the diff engine is a pure function of the previous and new
statuses; for every endpoint (paired with its previous status), the
batch holds exactly one Delete event for its address when the previous
status is OK (2xx) and the new one is not, exactly one Add event when
the previous status is not-OK and the new one is OK, and no event at all
when the classification is unchanged — in particular when both are
not-OK through different sub-states. -/
theorem C1_diff_edge_triggered (os : List Nat) (es : List Endpoint)
    (hnodup : (es.map Endpoint.Addr).Nodup)
    (o : Nat) (e : Endpoint) (hmem : (o, e) ∈ os.zip es) :
    ((diff os es).count ⟨Op.Delete, e.Addr⟩
        = if statusOK o = true ∧ statusOK e.status = false then 1 else 0)
  ∧ ((diff os es).count ⟨Op.Add, e.Addr⟩
        = if statusOK o = false ∧ statusOK e.status = true then 1 else 0) := by
  constructor
  · rw [diff_count Op.Delete os es hnodup o e hmem]
    by_cases h : statusOK o = true ∧ statusOK e.status = false
    · rw [if_pos ((diffEvent_delete_iff o e).mpr h), if_pos h]
    · rw [if_neg (fun hc => h ((diffEvent_delete_iff o e).mp hc)), if_neg h]
  · rw [diff_count Op.Add os es hnodup o e hmem]
    by_cases h : statusOK o = false ∧ statusOK e.status = true
    · rw [if_pos ((diffEvent_add_iff o e).mpr h), if_pos h]
    · rw [if_neg (fun hc => h ((diffEvent_add_iff o e).mp hc)), if_neg h]

/-- C1 witness: two endpoints; the first goes 200→502 (one Delete, no
Add for it), while the second goes 503→404 — not-OK to not-OK through
different sub-states, hence no event. -/
theorem C1_witness :
    (((diff [200, 503]
          [⟨"10.0.0.1:9000", "u1", 502⟩, ⟨"10.0.0.2:9000", "u2", 404⟩]).count
        ⟨Op.Delete, "10.0.0.2:9000"⟩
      = if statusOK 503 = true ∧ statusOK 404 = false then 1 else 0)
  ∧ ((diff [200, 503]
          [⟨"10.0.0.1:9000", "u1", 502⟩, ⟨"10.0.0.2:9000", "u2", 404⟩]).count
        ⟨Op.Add, "10.0.0.2:9000"⟩
      = if statusOK 503 = false ∧ statusOK 404 = true then 1 else 0)) :=
  C1_diff_edge_triggered [200, 503]
    [⟨"10.0.0.1:9000", "u1", 502⟩, ⟨"10.0.0.2:9000", "u2", 404⟩]
    (by decide) 503 ⟨"10.0.0.2:9000", "u2", 404⟩ (by decide)

/-- C2: every endpoint starts with the not-OK 503 sentinel; construction
over a non-empty list succeeds, the channel's initial contents hold one
Add per endpoint found healthy by the first round (and nothing for the
unhealthy ones), and when all N probes are healthy the first `Next`
call returns a batch of exactly N Add events, one per endpoint, each
address present exactly once. -/
theorem C2_initial_baseline (eps : List EndpointSpec) (rs : List ProbeResult)
    (hne : eps ≠ []) (hlen : rs.length = eps.length)
    (hnodup : (eps.map EndpointSpec.Addr).Nodup) :
    (∀ ep ∈ Healthz.setEndpoints eps, statusOK ep.status = false)
  ∧ ∃ chan endp, Healthz.newResolver eps rs = Except.ok (chan, endp)
      ∧ chan.flatten = (eps.zip rs).filterMap
          (fun p => if isHealthy p.2 then some (⟨Op.Add, p.1.Addr⟩ : Update) else none)
      ∧ ((∀ r ∈ rs, isHealthy r = true) →
          chan = [eps.map fun e => (⟨Op.Add, e.Addr⟩ : Update)]
          ∧ chan.flatten.length = eps.length
          ∧ (∀ e ∈ eps, chan.flatten.count (⟨Op.Add, e.Addr⟩ : Update) = 1)
          ∧ (next ⟨endp, false, false, chan⟩).1
              = NextOutcome.returns (eps.map fun e => (⟨Op.Add, e.Addr⟩ : Update)) none) := by
  refine ⟨setEndpoints_notOK eps, ?_⟩
  have hB : (Healthz.update (Healthz.setEndpoints eps) rs).1
      = Except.ok ((eps.zip rs).filterMap
          (fun p => if isHealthy p.2 then some (⟨Op.Add, p.1.Addr⟩ : Update) else none)) := by
    rw [healthz_update_ok, diff_from_notOK _ _ (setEndpoints_notOK eps),
      filterMap_zip_setEndpoints]
  have h0 : ¬ (Healthz.setEndpoints eps).length = 0 := by
    rw [setEndpoints_length, List.length_eq_zero]
    exact hne
  rcases hu : Healthz.update (Healthz.setEndpoints eps) rs with ⟨res, newEndp⟩
  rw [hu] at hB
  have hres : res = Except.ok ((eps.zip rs).filterMap
      (fun p => if isHealthy p.2 then some (⟨Op.Add, p.1.Addr⟩ : Update) else none)) := hB
  subst hres
  have hnr : Healthz.newResolver eps rs
      = Except.ok
          ((if ((eps.zip rs).filterMap
              (fun p => if isHealthy p.2 then some (⟨Op.Add, p.1.Addr⟩ : Update)
                        else none)).length > 0
            then [(eps.zip rs).filterMap
              (fun p => if isHealthy p.2 then some (⟨Op.Add, p.1.Addr⟩ : Update) else none)]
            else []), newEndp) := by
    simp only [Healthz.newResolver]
    rw [if_neg h0, hu]
  refine ⟨_, newEndp, hnr, join_guard _, ?_⟩
  intro hall
  have hBeq : (eps.zip rs).filterMap
      (fun p => if isHealthy p.2 then some (⟨Op.Add, p.1.Addr⟩ : Update) else none)
      = eps.map fun e => (⟨Op.Add, e.Addr⟩ : Update) :=
    filterMap_all_healthy eps rs hlen hall
  have hpos : ((eps.zip rs).filterMap
      (fun p => if isHealthy p.2 then some (⟨Op.Add, p.1.Addr⟩ : Update) else none)).length
        > 0 := by
    rw [hBeq, List.length_map]
    exact List.length_pos.mpr hne
  refine ⟨?_, ?_, ?_, ?_⟩
  · rw [if_pos hpos, hBeq]
  · rw [join_guard, hBeq, List.length_map]
  · intro e he
    rw [join_guard, hBeq, count_map_add]
    exact List.count_eq_one_of_mem hnodup (List.mem_map_of_mem EndpointSpec.Addr he)
  · rw [if_pos hpos, hBeq]
    rfl

/-- C2 witness: two endpoints, both healthy on the first round. -/
theorem C2_witness :
    (∀ ep ∈ Healthz.setEndpoints [⟨"10.0.0.1:9000", "hu1"⟩, ⟨"10.0.0.2:9000", "hu2"⟩],
        statusOK ep.status = false)
  ∧ ∃ chan endp,
      Healthz.newResolver [⟨"10.0.0.1:9000", "hu1"⟩, ⟨"10.0.0.2:9000", "hu2"⟩]
          [ProbeResult.ok 200, ProbeResult.ok 204] = Except.ok (chan, endp)
      ∧ chan.flatten
          = (([⟨"10.0.0.1:9000", "hu1"⟩, ⟨"10.0.0.2:9000", "hu2"⟩] : List EndpointSpec).zip
              [ProbeResult.ok 200, ProbeResult.ok 204]).filterMap
              (fun p => if isHealthy p.2 then some (⟨Op.Add, p.1.Addr⟩ : Update) else none)
      ∧ ((∀ r ∈ [ProbeResult.ok 200, ProbeResult.ok 204], isHealthy r = true) →
          chan = [([⟨"10.0.0.1:9000", "hu1"⟩, ⟨"10.0.0.2:9000", "hu2"⟩]
              : List EndpointSpec).map fun e => (⟨Op.Add, e.Addr⟩ : Update)]
          ∧ chan.flatten.length
              = ([⟨"10.0.0.1:9000", "hu1"⟩, ⟨"10.0.0.2:9000", "hu2"⟩]
                  : List EndpointSpec).length
          ∧ (∀ e ∈ ([⟨"10.0.0.1:9000", "hu1"⟩, ⟨"10.0.0.2:9000", "hu2"⟩]
                : List EndpointSpec),
              chan.flatten.count (⟨Op.Add, e.Addr⟩ : Update) = 1)
          ∧ (next ⟨endp, false, false, chan⟩).1
              = NextOutcome.returns
                  (([⟨"10.0.0.1:9000", "hu1"⟩, ⟨"10.0.0.2:9000", "hu2"⟩]
                    : List EndpointSpec).map fun e => (⟨Op.Add, e.Addr⟩ : Update)) none) :=
  C2_initial_baseline
    [⟨"10.0.0.1:9000", "hu1"⟩, ⟨"10.0.0.2:9000", "hu2"⟩]
    [ProbeResult.ok 200, ProbeResult.ok 204]
    (by decide) rfl (by decide)

/-- C10: one round's batch has at most one event per endpoint (its
length never exceeds the population size), every event's address belongs
to a configured endpoint, and no operation grows, shrinks or re-labels
the population — a round rewrites only statuses, and `Close`/`Next`
leave the endpoint set untouched. -/
theorem C10_population_invariants (endp : List Endpoint) (rs : List ProbeResult)
    (hlen : rs.length = endp.length) (s : ResolverState) :
    (∀ batch, (Healthz.update endp rs).1 = Except.ok batch →
        batch.length ≤ endp.length
        ∧ ∀ u ∈ batch, ∃ ep ∈ endp, u.addr = ep.Addr)
  ∧ (Healthz.update endp rs).2.map Endpoint.Addr = endp.map Endpoint.Addr
  ∧ (Healthz.update endp rs).2.map Endpoint.CheckURL = endp.map Endpoint.CheckURL
  ∧ (Healthz.update endp rs).2.length = endp.length
  ∧ (close s).endp = s.endp
  ∧ ((next s).2).endp = s.endp := by
  obtain ⟨se, sq, su, sbuf⟩ := s
  refine ⟨?_, ?_, ?_, ?_, ?_, ?_⟩
  · intro batch hbatch
    rw [healthz_update_ok] at hbatch
    injection hbatch with hb
    subst hb
    constructor
    · calc (diff (endp.map Endpoint.status)
            ((List.zipWith Healthz.probeGo endp rs).map Prod.fst)).length
          ≤ ((List.zipWith Healthz.probeGo endp rs).map Prod.fst).length :=
            diff_length_le _ _
        _ = endp.length := healthz_length_after endp rs hlen
    · intro u hu
      obtain ⟨e2, he2, ha⟩ := diff_addr_mem _ _ u hu
      have hmem : e2.Addr ∈ endp.map Endpoint.Addr := by
        rw [← healthz_addrs_after endp rs hlen]
        exact List.mem_map_of_mem Endpoint.Addr he2
      obtain ⟨ep, hep, heq⟩ := List.mem_map.mp hmem
      exact ⟨ep, hep, ha.trans heq.symm⟩
  · rw [healthz_update_endp]
    exact healthz_addrs_after endp rs hlen
  · rw [healthz_update_endp]
    exact healthz_checkurls_after endp rs hlen
  · rw [healthz_update_endp]
    exact healthz_length_after endp rs hlen
  · unfold close
    split <;> rfl
  · cases sbuf with
    | nil =>
      unfold next
      cases su <;> rfl
    | cons b rest => rfl

/-- C10 witness: a concrete one-endpoint round. -/
theorem C10_witness :
    (∀ batch, (Healthz.update [⟨"a", "u", 200⟩] [ProbeResult.ok 201]).1 = Except.ok batch →
        batch.length ≤ ([⟨"a", "u", 200⟩] : List Endpoint).length
        ∧ ∀ u2 ∈ batch, ∃ ep ∈ ([⟨"a", "u", 200⟩] : List Endpoint), u2.addr = ep.Addr)
  ∧ (Healthz.update [⟨"a", "u", 200⟩] [ProbeResult.ok 201]).2.map Endpoint.Addr
      = ([⟨"a", "u", 200⟩] : List Endpoint).map Endpoint.Addr
  ∧ (Healthz.update [⟨"a", "u", 200⟩] [ProbeResult.ok 201]).2.map Endpoint.CheckURL
      = ([⟨"a", "u", 200⟩] : List Endpoint).map Endpoint.CheckURL
  ∧ (Healthz.update [⟨"a", "u", 200⟩] [ProbeResult.ok 201]).2.length
      = ([⟨"a", "u", 200⟩] : List Endpoint).length
  ∧ (close ⟨[], false, false, []⟩).endp = (⟨[], false, false, []⟩ : ResolverState).endp
  ∧ ((next ⟨[], false, false, []⟩).2).endp = (⟨[], false, false, []⟩ : ResolverState).endp :=
  C10_population_invariants [⟨"a", "u", 200⟩] [ProbeResult.ok 201] rfl ⟨[], false, false, []⟩

end GrpcLb
